import Mathlib

/-!
Verification of the claims about the Crypto/Stock forecast dashboard
(`src/app.py`), as a shallow embedding in Lean.

Modelling conventions:
* A calendar day is a natural number (e.g. `20240101` for 2024-01-01);
  `pd.to_datetime(...).dt.date` truncation is part of the (modelled) parse.
* A numeric cell is `Option Rat`: `none` models a missing / NaN cell,
  `some q` a finite numeric value.  No floating-point NaN/inf arithmetic is
  modelled; the claims under study concern null-propagation and exact
  guards (`!= 0`), which the `Option Rat` model captures.
* A raw API record carries the *result* of parsing: `date = none` means the
  date-like field fails to parse (where `pd.to_datetime` raises),
  `value = none` means the numeric field is missing or non-numeric.
-/

namespace CryptoDash

/-- One raw record from the API (`predictions` item or `history` item).
`date` is the parsed calendar day (`none` if parsing fails), `value` the
numeric field (`yhat` for forecast, `close` for history; `none` if
missing/non-numeric, stored by pandas as NaN). -/
structure RawRecord where
  date : Option Nat
  value : Option Rat
deriving DecidableEq, Repr

/-- One normalized point of a series: a calendar day plus its (possibly
missing) numeric value. -/
structure Point where
  date : Nat
  value : Option Rat
deriving DecidableEq, Repr

/-- Series normalization, from `app.py` lines 177-179 and 189-191:
`df["date"] = pd.to_datetime(df["date"]).dt.date.astype(str)`.
`pd.to_datetime` raises as soon as *any* record's date fails to parse
(modelled as `none`); otherwise every record is kept, in input order, with
its date replaced by the canonical calendar day.  No sorting, no
deduplication, no row dropping happens. -/
def normalizePoints : List RawRecord → Option (List Point)
  | [] => some []
  | r :: rs =>
    match r.date with
    | none => none
    | some d => (normalizePoints rs).map (fun ps => ⟨d, r.value⟩ :: ps)

/-- The date column of a normalized series. -/
def datesOf (s : List Point) : List Nat := s.map Point.date

/-- Strictly-ascending order on a date column (this is exactly "sorted
ascending with no duplicate dates" for a list of comparable days). -/
def sortedStrict : List Nat → Bool
  | [] => true
  | [_] => true
  | a :: b :: t => decide (a < b) && sortedStrict (b :: t)

/-- A row of the inner merge in `build_residual_fig` (`app.py` line 102):
`close` comes from the history frame, `yhat` from the forecast frame. -/
structure MergedRow where
  date : Nat
  close : Option Rat
  yhat : Option Rat
deriving DecidableEq, Repr

/-- `merged["residual"] = merged["close"] - merged["yhat"]` (`app.py`
line 106); a missing operand yields a missing residual (NaN). -/
def MergedRow.residual (r : MergedRow) : Option Rat :=
  match r.close, r.yhat with
  | some a, some p => some (a - p)
  | _, _ => none

/-- `merged["abs_error"] = merged["residual"].abs()` (`app.py` line 107). -/
def MergedRow.absError (r : MergedRow) : Option Rat :=
  r.residual.map (fun x => |x|)

/-- Mean of a rational list, `none` when empty (pandas `Series.mean`
returns NaN on an empty/all-NaN column, rendered as unavailable). -/
def meanQ (l : List Rat) : Option Rat :=
  if l.isEmpty then none else some (l.sum / l.length)

/-- `pd.merge(a, p, on="date", how="inner")` (`app.py` line 102): for each
left (history) row in order, all forecast rows with an equal date. -/
def innerJoin : List Point → List Point → List MergedRow
  | [], _ => []
  | a :: as, p =>
    ((p.filter (fun q => q.date == a.date)).map
      (fun q => ⟨a.date, a.value, q.value⟩)) ++ innerJoin as p

/-- `mae = float(merged["abs_error"].mean())` (`app.py` line 121); pandas
`mean` skips NaN entries (`filterMap`). -/
def maeOf (rows : List MergedRow) : Option Rat :=
  meanQ (rows.filterMap MergedRow.absError)

/-- Data content of `build_residual_fig` (`app.py` lines 95-122): `none`
rows models the `return None, None` branches (either input empty, or the
inner join empty); otherwise the merged rows (whose residual bars the
figure draws) together with the MAE. -/
def build_residual_fig (history_df pred_df : List Point) :
    Option (List MergedRow) × Option Rat :=
  if history_df.isEmpty || pred_df.isEmpty then (none, none)
  else
    let merged := innerJoin history_df pred_df
    if merged.isEmpty then (none, none)
    else (some merged, maeOf merged)

/-- The call `build_residual_fig(history_df, pred_df)` with its frame
effects made explicit: the body copies both inputs (`a = history_df.copy()`,
`p = pred_df.copy()`, `app.py` lines 100-101), so the column assignments on
`merged` touch only data derived from the copies; the function returns its
result and the (unchanged) values of the two caller frames. -/
def build_residual_fig_call (history_df pred_df : List Point) :
    (Option (List MergedRow) × Option Rat) × (List Point × List Point) :=
  let a := history_df
  let p := pred_df
  (build_residual_fig a p, (history_df, pred_df))

/-- `next_pred = float(pred_df.iloc[0]["yhat"]) if not pred_df.empty else
None` (`app.py` lines 213-215); a missing cell propagates as missing. -/
def nextPred (pred_df : List Point) : Option Rat :=
  pred_df.head?.bind Point.value

/-- `end_pred = float(pred_df.iloc[-1]["yhat"]) if not pred_df.empty else
None` (`app.py` lines 203-205). -/
def endPred (pred_df : List Point) : Option Rat :=
  pred_df.getLast?.bind Point.value

/-- `delta = forecast - float(last_value)` guarded by both operands being
non-null (`app.py` lines 209-210 and 219-220). -/
def deltaOf (last_value fc : Option Rat) : Option Rat :=
  match last_value, fc with
  | some lv, some f => some (f - lv)
  | _, _ => none

/-- `pct = (delta / float(last_value)) * 100.0 if float(last_value) != 0
else None`, computed only when `delta` is (`app.py` lines 211 and
221-222). -/
def pctOf (last_value fc : Option Rat) : Option Rat :=
  match last_value, fc with
  | some lv, some f => if lv ≠ 0 then some ((f - lv) / lv * 100) else none
  | _, _ => none

/-- The four derived KPI scalars plus the two forecast endpoints they come
from (`app.py` lines 203-222). -/
structure KPIs where
  delta_h : Option Rat
  pct_h : Option Rat
  delta : Option Rat
  pct : Option Rat
  next_pred : Option Rat
  end_pred : Option Rat
deriving DecidableEq, Repr

/-- KPI derivation of `app.py` lines 199-222; `last_value` is
`pred_data.get("last_value")`, taken from the `/predict` response. -/
def computeKPIs (last_value : Option Rat) (pred_df : List Point) : KPIs :=
  ⟨deltaOf last_value (endPred pred_df),
   pctOf last_value (endPred pred_df),
   deltaOf last_value (nextPred pred_df),
   pctOf last_value (nextPred pred_df),
   nextPred pred_df,
   endPred pred_df⟩

/-- The step-change tile (`app.py` lines 252-266) takes its formatted
branch exactly when `delta` is non-null; that branch interpolates
`{pct:,.3f}` with no null guard on `pct`. -/
def stepTileFormatsPct (k : KPIs) : Bool := k.delta.isSome

/-- The horizon tile (`app.py` lines 268-282) takes its formatted branch
only when both `delta_h` and `pct_h` are non-null. -/
def horizonTileFormatsPct (k : KPIs) : Bool :=
  k.delta_h.isSome && k.pct_h.isSome

/-- Result of the `/health` probe (`app.py` lines 159-166): either a parsed
response with its (possibly absent) `status` field, or an exception from
`get_json`. -/
inductive HealthResult where
  | ok (status : Option String)
  | err (msg : String)
deriving DecidableEq, Repr

/-- `health_ok = (health.get("status") == "ok")`, `False` when the probe
raised (`app.py` lines 159-166). -/
def health_ok : HealthResult → Bool
  | .ok s => s == some "ok"
  | .err _ => false

/-- Parsed body of the `/predict` response (`app.py` lines 176-177,
199-200). -/
structure PredictResponse where
  last_date : Option Nat
  last_value : Option Rat
  predictions : List RawRecord
deriving DecidableEq, Repr

/-- The `/history` leg (`app.py` lines 184-194): any exception — transport
failure or a date that fails to parse inside the `try` — lands in the
`except` clause, which empties the frame and marks history unsupported. -/
def fetchHistory : Except Unit (List RawRecord) → List Point × Bool
  | .error _ => ([], false)
  | .ok rs =>
    match normalizePoints rs with
    | none => ([], false)
    | some hdf => (hdf, true)

/-- Observable outcome of one refresh cycle. -/
inductive CycleOutcome where
  | healthHalt
  | predictHalt
  | rendered (kpis : KPIs) (history_df : List Point)
      (history_supported : Bool)
      (residuals : Option (Option (List MergedRow) × Option Rat))
deriving DecidableEq, Repr

/-- One refresh cycle (`app.py` lines 159-330): the health gate
(`st.stop()` on failure, before any other fetch), the `/predict` leg
(`st.stop()` on exception, including a date-parse failure), the optional
`/history` leg, the KPI row, and the diagnostics section (residuals built
only when history is supported). -/
def runCycle (health : HealthResult)
    (predictResp : Except Unit PredictResponse)
    (histResp : Except Unit (List RawRecord)) : CycleOutcome :=
  if health_ok health then
    match predictResp with
    | .error _ => .predictHalt
    | .ok pd =>
      match normalizePoints pd.predictions with
      | none => .predictHalt
      | some pred_df =>
        let hs := fetchHistory histResp
        .rendered (computeKPIs pd.last_value pred_df) hs.1 hs.2
          (if hs.2 then some (build_residual_fig hs.1 pred_df) else none)
  else .healthHalt

/-- The KPI set a cycle renders, `none` when the cycle halted. -/
def kpisOf : CycleOutcome → Option KPIs
  | .rendered k _ _ _ => some k
  | _ => none

/-- The step-change delta a cycle renders, `none` when the cycle halted or
the delta is unavailable. -/
def stepDeltaOf (o : CycleOutcome) : Option Rat :=
  (kpisOf o).bind KPIs.delta

/-- The history frame a cycle renders, with its supported flag. -/
def historyOf : CycleOutcome → Option (List Point × Bool)
  | .rendered _ h s _ => some (h, s)
  | _ => none

/-- Normalization succeeds exactly on lists where every date parses, and
then the date column is the record dates in input order. -/
theorem normalizePoints_dates : ∀ (rs : List RawRecord) (out : List Point),
    normalizePoints rs = some out → datesOf out = rs.filterMap RawRecord.date := by
  intro rs
  induction rs with
  | nil =>
    intro out h
    simp [normalizePoints] at h
    simp [← h, datesOf]
  | cons r rs ih =>
    intro out h
    cases hr : r.date with
    | none => simp [normalizePoints, hr] at h
    | some d =>
      simp only [normalizePoints, hr, Option.map_eq_some'] at h
      obtain ⟨ps, hps, hout⟩ := h
      simp [← hout, datesOf, List.filterMap_cons, hr]
      have := ih ps hps
      simpa [datesOf] using this

/-- Normalization never drops a record: on success the output has one point
per input record. -/
theorem normalizePoints_length : ∀ (rs : List RawRecord) (out : List Point),
    normalizePoints rs = some out → out.length = rs.length := by
  intro rs
  induction rs with
  | nil =>
    intro out h
    simp [normalizePoints] at h
    simp [← h]
  | cons r rs ih =>
    intro out h
    cases hr : r.date with
    | none => simp [normalizePoints, hr] at h
    | some d =>
      simp only [normalizePoints, hr, Option.map_eq_some'] at h
      obtain ⟨ps, hps, hout⟩ := h
      simp [← hout, ih ps hps]

/-- Normalization fails exactly when some record's date fails to parse
(modelling `pd.to_datetime` raising on the whole column). -/
theorem normalizePoints_none_iff (rs : List RawRecord) :
    normalizePoints rs = none ↔ rs.any (fun r => r.date.isNone) = true := by
  induction rs with
  | nil => simp [normalizePoints]
  | cons r rs ih =>
    cases hr : r.date with
    | none => simp [normalizePoints, hr]
    | some d => simp [normalizePoints, hr, Option.map_eq_none', ih]

/-- A strictly sorted date column is strictly below everything after its
head. -/
theorem sortedStrict_lt_of_mem : ∀ (l : List Nat) (a : Nat),
    sortedStrict (a :: l) = true → ∀ x ∈ l, a < x := by
  intro l
  induction l with
  | nil => intro a _ x hx; cases hx
  | cons b t ih =>
    intro a h x hx
    simp only [sortedStrict, Bool.and_eq_true, decide_eq_true_eq] at h
    rcases List.mem_cons.mp hx with hxb | hxt
    · exact hxb ▸ h.1
    · exact lt_trans h.1 (ih b h.2 x hxt)

/-- The tail of a strictly sorted column is strictly sorted. -/
theorem sortedStrict_tail : ∀ (l : List Nat) (a : Nat),
    sortedStrict (a :: l) = true → sortedStrict l = true := by
  intro l a h
  cases l with
  | nil => rfl
  | cons b t =>
    simp only [sortedStrict, Bool.and_eq_true] at h
    exact h.2

/-- A strictly sorted date column has no duplicates. -/
theorem sortedStrict_nodup : ∀ l : List Nat, sortedStrict l = true → l.Nodup := by
  intro l
  induction l with
  | nil => intro _; exact List.nodup_nil
  | cons a t ih =>
    intro h
    refine List.nodup_cons.mpr ⟨fun hmem => ?_, ih (sortedStrict_tail t a h)⟩
    exact lt_irrefl a (sortedStrict_lt_of_mem t a h a hmem)

/-- An inner join of series sharing no date is empty. -/
theorem innerJoin_eq_nil : ∀ (h p : List Point),
    (∀ a ∈ h, ∀ b ∈ p, a.date ≠ b.date) → innerJoin h p = [] := by
  intro h
  induction h with
  | nil => intro p _; rfl
  | cons a as ih =>
    intro p hd
    have hfil : p.filter (fun q => q.date == a.date) = [] := by
      refine List.filter_eq_nil_iff.mpr ?_
      intro q hq
      simp only [beq_iff_eq]
      exact fun hEq => hd a (List.mem_cons_self a as) q hq hEq.symm
    simp only [innerJoin, hfil, List.map_nil, List.nil_append]
    exact ih p (fun x hx b hb => hd x (List.mem_cons_of_mem a hx) b hb)

/-- C1 counterexample: the normalizer accepts a record list whose dates are
out of order and returns it unsorted, and accepts a list with a duplicated
date and returns the duplicate; so the output is neither sorted ascending
nor duplicate-free in general (`app.py` lines 177-179 and 189-191 never
sort or deduplicate). -/
theorem c1_normalizer_unsorted_counterexample :
    normalizePoints [⟨some 20240102, some 1⟩, ⟨some 20240101, some 2⟩]
        = some [⟨20240102, some 1⟩, ⟨20240101, some 2⟩] ∧
    sortedStrict (datesOf [⟨20240102, some 1⟩, ⟨20240101, some 2⟩]) = false ∧
    normalizePoints [⟨some 20240101, some 1⟩, ⟨some 20240101, some 2⟩]
        = some [⟨20240101, some 1⟩, ⟨20240101, some 2⟩] ∧
    ¬ (datesOf [⟨20240101, some 1⟩, ⟨20240101, some 2⟩]).Nodup :=
  ⟨rfl, rfl, rfl, by decide⟩

/-- C1 (amended): the normalizer keeps the records' dates in input order
(`datesOf out = rs.filterMap RawRecord.date`); consequently its output is
sorted ascending with no duplicate dates exactly on inputs whose parsed
dates are already strictly increasing. -/
theorem c1_normalizer_order_preserving :
    ∀ (rs : List RawRecord) (out : List Point), normalizePoints rs = some out →
      datesOf out = rs.filterMap RawRecord.date ∧
      (sortedStrict (rs.filterMap RawRecord.date) = true →
        sortedStrict (datesOf out) = true ∧ (datesOf out).Nodup) := by
  intro rs out h
  have hd := normalizePoints_dates rs out h
  refine ⟨hd, fun hs => ?_⟩
  rw [hd]
  exact ⟨hs, sortedStrict_nodup _ hs⟩

/-- C1 witness: the order-preservation theorem applied to a concrete
two-record list with increasing dates. -/
theorem c1_normalizer_order_preserving_witness :
    datesOf [⟨20240101, some 1⟩, (⟨20240102, some 2⟩ : Point)]
        = [⟨some 20240101, some 1⟩,
           (⟨some 20240102, some 2⟩ : RawRecord)].filterMap RawRecord.date ∧
    (sortedStrict ([⟨some 20240101, some 1⟩,
        (⟨some 20240102, some 2⟩ : RawRecord)].filterMap RawRecord.date) = true →
      sortedStrict (datesOf [⟨20240101, some 1⟩, (⟨20240102, some 2⟩ : Point)]) = true ∧
      (datesOf [⟨20240101, some 1⟩, (⟨20240102, some 2⟩ : Point)]).Nodup) :=
  c1_normalizer_order_preserving
    [⟨some 20240101, some 1⟩, ⟨some 20240102, some 2⟩]
    [⟨20240101, some 1⟩, ⟨20240102, some 2⟩] rfl

/-- C2 counterexample: a cycle whose history leg succeeded with the
non-empty series [(2024-01-01, 999)] still derives its step delta from the
API-reported `last_value = 100` (delta = 105 - 100 = 5); the most recent
history point (999) would give 105 - 999 = -894 instead, so `lastObserved`
is not the most recent point of the history series even when history is
available (`app.py` lines 199-200 read only `pred_data`). -/
theorem c2_last_value_counterexample :
    historyOf (runCycle (.ok (some "ok"))
        (.ok ⟨some 20240101, some 100, [⟨some 20240102, some 105⟩]⟩)
        (.ok [⟨some 20240101, some 999⟩]))
      = some ([⟨20240101, some 999⟩], true) ∧
    stepDeltaOf (runCycle (.ok (some "ok"))
        (.ok ⟨some 20240101, some 100, [⟨some 20240102, some 105⟩]⟩)
        (.ok [⟨some 20240101, some 999⟩]))
      = some 5 ∧
    stepDeltaOf (runCycle (.ok (some "ok"))
        (.ok ⟨some 20240101, some 100, [⟨some 20240102, some 105⟩]⟩)
        (.ok [⟨some 20240101, some 999⟩]))
      ≠ some ((105 : Rat) - 999) := by
  refine ⟨rfl, ?_, ?_⟩
  · norm_num [stepDeltaOf, kpisOf, runCycle, health_ok, normalizePoints,
      fetchHistory, computeKPIs, deltaOf, pctOf, nextPred, endPred]
  · norm_num [stepDeltaOf, kpisOf, runCycle, health_ok, normalizePoints,
      fetchHistory, computeKPIs, deltaOf, pctOf, nextPred, endPred]

/-- C2 (amended): the KPI inputs never come from the history series —
`last_value` is always the API-reported value from the `/predict` response,
whether or not history is available: the rendered KPI set is independent of
the history response, and on a successful predict leg it equals
`computeKPIs pred.last_value pred_df`. -/
theorem c2_last_value_always_from_api :
    (∀ (health : HealthResult) (pr : Except Unit PredictResponse)
        (hr hr' : Except Unit (List RawRecord)),
      kpisOf (runCycle health pr hr) = kpisOf (runCycle health pr hr')) ∧
    (∀ (health : HealthResult) (pd : PredictResponse)
        (hr : Except Unit (List RawRecord)) (pred_df : List Point),
      health_ok health = true → normalizePoints pd.predictions = some pred_df →
      kpisOf (runCycle health (.ok pd) hr)
        = some (computeKPIs pd.last_value pred_df)) := by
  constructor
  · intro health pr hr hr'
    unfold runCycle
    by_cases hh : health_ok health
    · simp only [hh, if_true]
      cases pr with
      | error e => rfl
      | ok pd =>
        cases hnp : normalizePoints pd.predictions with
        | none => simp [hnp, kpisOf]
        | some pdf => simp [hnp, kpisOf]
    · simp [hh]
  · intro health pd hr pred_df hh hnp
    unfold runCycle
    simp [hh, hnp, kpisOf]

/-- C2 witness: the amended theorem at a concrete healthy cycle. -/
theorem c2_last_value_always_from_api_witness :
    kpisOf (runCycle (.ok (some "ok"))
        (.ok ⟨some 20240101, some 100, [⟨some 20240102, some 105⟩]⟩)
        (.ok [⟨some 20240101, some 999⟩]))
      = some (computeKPIs (some 100) [⟨20240102, some 105⟩]) :=
  c2_last_value_always_from_api.2 (.ok (some "ok"))
    ⟨some 20240101, some 100, [⟨some 20240102, some 105⟩]⟩
    (.ok [⟨some 20240101, some 999⟩]) [⟨20240102, some 105⟩] rfl rfl

/-- C3: when the last observed value is 0, both `pct` and `pct_h` are null
(never a division result); when it is a nonzero `v` and the first forecast
point's value `np` exists, `pct` is exactly `delta / v * 100` with
`delta = np - v` (`app.py` lines 207-222). -/
theorem c3_zero_guard_and_pct_formula :
    (∀ pred_df : List Point,
      (computeKPIs (some 0) pred_df).pct = none ∧
      (computeKPIs (some 0) pred_df).pct_h = none) ∧
    (∀ (v : Rat) (pred_df : List Point) (np : Rat), v ≠ 0 →
      nextPred pred_df = some np →
      (computeKPIs (some v) pred_df).delta = some (np - v) ∧
      (computeKPIs (some v) pred_df).pct = some ((np - v) / v * 100) ∧
      (computeKPIs (some v) pred_df).pct
        = ((computeKPIs (some v) pred_df).delta).map (fun d => d / v * 100)) := by
  constructor
  · intro pred_df
    constructor
    · show pctOf (some 0) (nextPred pred_df) = none
      cases nextPred pred_df with
      | none => rfl
      | some f => simp [pctOf]
    · show pctOf (some 0) (endPred pred_df) = none
      cases endPred pred_df with
      | none => rfl
      | some f => simp [pctOf]
  · intro v pred_df np hv hnp
    refine ⟨?_, ?_, ?_⟩
    · show deltaOf (some v) (nextPred pred_df) = some (np - v)
      rw [hnp]; rfl
    · show pctOf (some v) (nextPred pred_df) = some ((np - v) / v * 100)
      rw [hnp]; simp [pctOf, hv]
    · show pctOf (some v) (nextPred pred_df)
        = (deltaOf (some v) (nextPred pred_df)).map (fun d => d / v * 100)
      rw [hnp]; simp [pctOf, deltaOf, hv]

/-- C3 witness: the step percent formula at `last_value = 100` and first
forecast value 105. -/
theorem c3_zero_guard_and_pct_formula_witness :
    (computeKPIs (some 100) [⟨20240102, some 105⟩]).delta
        = some ((105 : Rat) - 100) ∧
    (computeKPIs (some 100) [⟨20240102, some 105⟩]).pct
        = some (((105 : Rat) - 100) / 100 * 100) ∧
    (computeKPIs (some 100) [⟨20240102, some 105⟩]).pct
        = ((computeKPIs (some 100) [⟨20240102, some 105⟩]).delta).map
            (fun d => d / 100 * 100) :=
  c3_zero_guard_and_pct_formula.2 100 [⟨20240102, some 105⟩] 105
    (by norm_num) rfl

/-- C4 (code bug evaluated at its failing input): with `last_value = 0` and
a non-empty forecast, `delta` is non-null while `pct` is null, and the
step tile (`app.py` lines 253-266, which guards only `delta`) takes the
branch that formats `pct`, unlike the horizon tile (`app.py` lines 268-282,
which guards both and takes the safe branch). -/
theorem c4_step_tile_formats_null_pct :
    computeKPIs (some 0) [⟨20240102, some 5⟩]
        = ⟨some 5, none, some 5, none, some 5, some 5⟩ ∧
    stepTileFormatsPct (computeKPIs (some 0) [⟨20240102, some 5⟩]) = true ∧
    (computeKPIs (some 0) [⟨20240102, some 5⟩]).pct = none ∧
    horizonTileFormatsPct (computeKPIs (some 0) [⟨20240102, some 5⟩]) = false := by
  have h : computeKPIs (some 0) [⟨20240102, some 5⟩]
      = ⟨some 5, none, some 5, none, some 5, some 5⟩ := by
    norm_num [computeKPIs, deltaOf, pctOf, nextPred, endPred]
  refine ⟨h, ?_, ?_, ?_⟩ <;> rw [h] <;> rfl

/-- C5: on history [(2024-01-01, 100), (2024-01-02, 102)] and forecast
[(2024-01-02, 101)], the residual join yields exactly the row
(2024-01-02, actual 102, predicted 101) with residual 1, absolute error 1,
and MAE 1; in general, residual = actual - predicted, absError is its
absolute value, and the MAE is the mean of the rows' absolute errors. -/
theorem c5_residual_join_example :
    build_residual_fig [⟨20240101, some 100⟩, ⟨20240102, some 102⟩]
        [⟨20240102, some 101⟩]
      = (some [⟨20240102, some 102, some 101⟩], some 1) ∧
    MergedRow.residual ⟨20240102, some 102, some 101⟩ = some 1 ∧
    MergedRow.absError ⟨20240102, some 102, some 101⟩ = some 1 ∧
    (∀ (d : Nat) (a p : Rat),
      MergedRow.residual ⟨d, some a, some p⟩ = some (a - p)) ∧
    (∀ r : MergedRow, r.absError = r.residual.map (fun x => |x|)) ∧
    (∀ rows : List MergedRow,
      maeOf rows = meanQ (rows.filterMap MergedRow.absError)) := by
  refine ⟨?_, ?_, ?_, fun d a p => rfl, fun r => rfl, fun rows => rfl⟩
  · norm_num [build_residual_fig, innerJoin, maeOf, meanQ, MergedRow.absError,
      MergedRow.residual, List.filterMap_cons, List.filterMap_nil]
  · norm_num [MergedRow.residual]
  · norm_num [MergedRow.absError, MergedRow.residual]

/-- C6: whenever the two series share no date — in particular whenever
either series is empty, which satisfies the no-shared-date hypothesis
vacuously — the residual join returns the empty result with a null MAE
(the `return None, None` branches of `app.py` lines 97-104); the function
is total, so no error is raised. -/
theorem c6_no_overlap_empty_result :
    (∀ p : List Point, build_residual_fig [] p = (none, none)) ∧
    (∀ h : List Point, build_residual_fig h [] = (none, none)) ∧
    (∀ h p : List Point, (∀ a ∈ h, ∀ b ∈ p, a.date ≠ b.date) →
      build_residual_fig h p = (none, none)) := by
  refine ⟨fun p => rfl, ?_, ?_⟩
  · intro h
    cases h with
    | nil => rfl
    | cons a as => simp [build_residual_fig]
  · intro h p hd
    by_cases hh : h.isEmpty
    · simp [build_residual_fig, hh]
    · by_cases hp : p.isEmpty
      · simp [build_residual_fig, hh, hp]
      · have hj : innerJoin h p = [] := innerJoin_eq_nil h p hd
        simp [build_residual_fig, hh, hp, hj]

/-- C6 witness: the no-overlap case at concrete disjoint one-point
series. -/
theorem c6_no_overlap_empty_result_witness :
    build_residual_fig [⟨20240101, some 1⟩] [⟨20240102, some 2⟩]
      = (none, none) :=
  c6_no_overlap_empty_result.2.2 [⟨20240101, some 1⟩] [⟨20240102, some 2⟩]
    (by decide)

/-- C9: with an empty forecast series, the forecast endpoints are both null
and none of the four delta/pct scalars is computed (`app.py` lines
203-222: every one of them requires a forecast endpoint). -/
theorem c9_empty_forecast_all_null :
    ∀ last_value : Option Rat,
      computeKPIs last_value [] = ⟨none, none, none, none, none, none⟩ := by
  intro lv
  cases lv <;> rfl

/-- C10: the residual-join call leaves both caller frames unchanged (the
body works on copies, `app.py` lines 100-101), and its returned result is
the same as the join computed on those inputs. -/
theorem c10_residual_join_inputs_unchanged :
    ∀ h p : List Point,
      (build_residual_fig_call h p).2 = (h, p) ∧
      (build_residual_fig_call h p).1 = build_residual_fig h p := by
  intro h p
  exact ⟨rfl, rfl⟩

/-- C7 counterexample: a list with one well-formed record and one record
whose date fails to parse is not reduced to the well-formed point — the
whole normalization fails (`pd.to_datetime` raises on the column); in the
predict leg that exception halts the cycle (`st.stop()`, `app.py` lines
180-182), and in the history leg the entire series is discarded (`app.py`
lines 192-194). -/
theorem c7_malformed_row_counterexample :
    normalizePoints [⟨some 20240101, some 100⟩, ⟨none, some 5⟩] = none ∧
    normalizePoints [⟨some 20240101, some 100⟩, ⟨none, some 5⟩]
      ≠ some [⟨20240101, some 100⟩] ∧
    runCycle (.ok (some "ok"))
        (.ok ⟨some 20240101, some 100,
          [⟨some 20240101, some 100⟩, ⟨none, some 5⟩]⟩)
        (.error ())
      = .predictHalt ∧
    fetchHistory (.ok [⟨some 20240101, some 100⟩, ⟨none, some 5⟩])
      = ([], false) := by
  refine ⟨rfl, ?_, rfl, rfl⟩
  intro h
  simp [normalizePoints] at h

/-- C7 (amended): a record whose date fails to parse is fatal to its whole
series rather than silently skipped: normalization fails exactly when some
record's date fails to parse; then the history leg discards the entire
series (empty frame, unsupported flag) and a healthy cycle's predict leg
halts; when all dates parse, every record is kept — including ones whose
numeric field is missing/non-numeric, which are not dropped either. -/
theorem c7_malformed_row_is_fatal :
    (∀ rs : List RawRecord,
      normalizePoints rs = none ↔ rs.any (fun r => r.date.isNone) = true) ∧
    (∀ (rs : List RawRecord) (out : List Point),
      normalizePoints rs = some out → out.length = rs.length) ∧
    (∀ rs : List RawRecord, normalizePoints rs = none →
      fetchHistory (.ok rs) = ([], false)) ∧
    (∀ (health : HealthResult) (pd : PredictResponse)
        (hr : Except Unit (List RawRecord)),
      health_ok health = true → normalizePoints pd.predictions = none →
      runCycle health (.ok pd) hr = .predictHalt) := by
  refine ⟨normalizePoints_none_iff, normalizePoints_length, ?_, ?_⟩
  · intro rs h
    simp [fetchHistory, h]
  · intro health pd hr hh hnp
    simp [runCycle, hh, hnp]

/-- C7 witness: the fatal-predict-leg conjunct at a concrete healthy cycle
whose forecast list contains an unparseable date. -/
theorem c7_malformed_row_is_fatal_witness :
    runCycle (.ok (some "ok"))
        (.ok ⟨some 20240101, some 100,
          [⟨some 20240101, some 100⟩, ⟨none, some 5⟩]⟩)
        (.error ())
      = .predictHalt :=
  c7_malformed_row_is_fatal.2.2.2 (.ok (some "ok"))
    ⟨some 20240101, some 100, [⟨some 20240101, some 100⟩, ⟨none, some 5⟩]⟩
    (.error ()) rfl rfl

/-- C8: the cycle is healthy exactly when the parsed `/health` body has
`status == "ok"` (a transport error or any other status is unhealthy), and
an unhealthy cycle halts at the health gate with the error rendering,
independently of whatever the predict and history legs would return (the
two fetches are never issued: `st.stop()` at `app.py` line 170 precedes
them); a healthy cycle never halts at the health gate. -/
theorem c8_health_gate :
    (∀ s : Option String, health_ok (.ok s) = true ↔ s = some "ok") ∧
    (∀ m : String, health_ok (.err m) = false) ∧
    (∀ (health : HealthResult) (pr : Except Unit PredictResponse)
        (hr : Except Unit (List RawRecord)),
      health_ok health = false → runCycle health pr hr = .healthHalt) ∧
    (∀ (health : HealthResult) (pr : Except Unit PredictResponse)
        (hr : Except Unit (List RawRecord)),
      health_ok health = true → runCycle health pr hr ≠ .healthHalt) := by
  refine ⟨?_, fun m => rfl, ?_, ?_⟩
  · intro s
    simp [health_ok]
  · intro health pr hr hh
    simp [runCycle, hh]
  · intro health pr hr hh
    unfold runCycle
    simp only [hh, if_true]
    cases pr with
    | error e => simp
    | ok pd =>
      cases hnp : normalizePoints pd.predictions with
      | none => simp [hnp]
      | some pdf => simp [hnp]

/-- C8 witness: a failed health probe halts a concrete cycle regardless of
the other responses, and a concrete healthy probe passes the gate. -/
theorem c8_health_gate_witness :
    runCycle (.err "connection refused")
        (.ok ⟨some 20240101, some 100, [⟨some 20240102, some 105⟩]⟩)
        (.ok [⟨some 20240101, some 999⟩])
      = .healthHalt ∧
    (health_ok (.ok (some "ok")) = true ↔ some "ok" = some "ok") :=
  ⟨c8_health_gate.2.2.1 (.err "connection refused")
      (.ok ⟨some 20240101, some 100, [⟨some 20240102, some 105⟩]⟩)
      (.ok [⟨some 20240101, some 999⟩]) rfl,
   c8_health_gate.1 (some "ok")⟩
